import Mathlib

/-!
Verification development for the AWS resource discovery repository.

The definitions below are a shallow embedding of the graph-projection code in
`src/graph/neo4j_client.py` and of the enumeration error handling in
`src/core/base_service.py`.  Python dictionaries are modelled as association
lists in insertion/assignment order; a later assignment to the same key wins on
lookup (`dictGet` takes the last binding), which matches Python `dict`
update/overwrite semantics for every property this development reasons about.
-/

namespace AwsDiscovery

/-- Occurrence of `pat` as a contiguous subsequence of `l` (Python's `in`
on strings, over their character lists). -/
def subOccurs (pat : List Char) : List Char → Bool
  | [] => pat.isEmpty
  | c :: tl => pat.isPrefixOf (c :: tl) || subOccurs pat tl

/-- Python's substring test `pat in s`. -/
def strContainsSub (s pat : String) : Bool :=
  subOccurs pat.data s.data

/-- Python `s.startswith(pre)`. -/
def pyStartsWith (s pre : String) : Bool :=
  pre.data.isPrefixOf s.data

/-- Python `s.lower()` (ASCII case folding, which covers every string the
code lowers). -/
def pyLower (s : String) : String :=
  String.mk (s.data.map Char.toLower)

/-- Python `s.strip()`: drop leading and trailing whitespace. -/
def pyStrip (s : String) : String :=
  String.mk (((s.data.dropWhile Char.isWhitespace).reverse.dropWhile
    Char.isWhitespace).reverse)

/-- Helper for `pySplitOn`: prepend a character to the first chunk. -/
def consHead (c : Char) : List (List Char) → List (List Char)
  | [] => [[c]]
  | h :: t => (c :: h) :: t

/-- Fuel-indexed worker for Python `s.split(sep)` with a non-empty separator:
cut at every leftmost non-overlapping occurrence, keeping empty chunks. -/
def pySplitGo (sep : List Char) : Nat → List Char → List (List Char)
  | _, [] => [[]]
  | 0, l => [l]
  | fuel + 1, c :: tl =>
    if sep.isPrefixOf (c :: tl) ∧ sep ≠ [] then
      [] :: pySplitGo sep fuel ((c :: tl).drop sep.length)
    else consHead c (pySplitGo sep fuel tl)

/-- Python `s.split(sep)` for a non-empty separator string. -/
def pySplitOn (s sep : String) : List String :=
  (pySplitGo sep.data s.data.length s.data).map String.mk

mutual
/-- JSON-like property values (`properties` of a resource record): scalars,
lists and nested maps.  Python `float` values do not occur in any claim and are
omitted from the embedding. -/
inductive PVal where
  | vstr : String → PVal
  | vint : Int → PVal
  | vbool : Bool → PVal
  | vnull : PVal
  | varr : PList → PVal
  | vobj : PObj → PVal
deriving DecidableEq, Repr

/-- Spine of a JSON list. -/
inductive PList where
  | nil : PList
  | cons : PVal → PList → PList
deriving DecidableEq, Repr

/-- Spine of a JSON object (ordered key/value pairs, as in a Python dict). -/
inductive PObj where
  | nil : PObj
  | cons : String → PVal → PObj → PObj
deriving DecidableEq, Repr
end

/-- The normalized resource record (`src/core/resource_info.py`, `ResourceInfo`). -/
structure ResourceInfo where
  resource_type : String
  identifier : String
  arn : String := ""
  properties : PVal := PVal.vobj PObj.nil
  service : String := ""
  region : String := ""
  error : String := ""
deriving Repr, DecidableEq

/-- `ResourceInfo.has_error`: Python truthiness of the `error` string. -/
def ResourceInfo.hasError (r : ResourceInfo) : Bool :=
  r.error != ""

/-- `ResourceInfo.is_valid`: non-empty identifier and no error. -/
def ResourceInfo.isValid (r : ResourceInfo) : Bool :=
  r.identifier != "" && !r.hasError

/-- Lookup in a Python dict modelled as an assignment sequence: the last
binding of a key wins. -/
def dictGet {α : Type} : List (String × α) → String → Option α
  | [], _ => none
  | (k, v) :: tl, key =>
    match dictGet tl key with
    | some w => some w
    | none => if k == key then some v else none

/-- `_determine_usage_relationship` (`src/graph/neo4j_client.py:581-625`):
the ordered substring-rule classifier for usage edges. -/
def determineUsageRelationship (source target : ResourceInfo)
    (path key : String) : String :=
  let key_lower := pyLower key
  let path_lower := pyLower path
  let target_type := target.resource_type
  let _source_type := source.resource_type
  if strContainsSub key_lower "log" || strContainsSub path_lower "logging" then
    "LOGS_TO"
  else if strContainsSub key_lower "vpc" && strContainsSub target_type "VPC" then
    "DEPLOYED_IN"
  else if strContainsSub key_lower "subnet" && strContainsSub target_type "Subnet" then
    "DEPLOYED_IN"
  else if strContainsSub key_lower "securitygroup" || strContainsSub key_lower "groupid" then
    "PROTECTED_BY"
  else if strContainsSub key_lower "role" && strContainsSub target_type "Role" then
    "ASSUMES"
  else if strContainsSub key_lower "policy" && strContainsSub target_type "Policy" then
    "HAS_POLICY"
  else if strContainsSub key_lower "volume" && strContainsSub target_type "Volume" then
    "USES_VOLUME"
  else if strContainsSub key_lower "snapshot" && strContainsSub target_type "Snapshot" then
    "CREATED_FROM"
  else if strContainsSub key_lower "route" || strContainsSub key_lower "gateway" then
    "ROUTES_THROUGH"
  else if strContainsSub key_lower "loadbalancer" || strContainsSub key_lower "targetgroup" then
    "LOAD_BALANCED_BY"
  else if strContainsSub key_lower "db" &&
      (strContainsSub target_type "DB" || strContainsSub target_type "Database" ||
       strContainsSub target_type "RDS") then
    "CONNECTS_TO"
  else
    "USES"

/-- One classification rule: a condition on (target type, lowered path,
lowered key) together with the relationship kind it yields. -/
def ClassRule : Type := (String → String → String → Bool) × String

/-- The classifier's rule table, in source order (first match wins). -/
def classificationRules : List ClassRule :=
  [ (fun _ pl kl => strContainsSub kl "log" || strContainsSub pl "logging", "LOGS_TO"),
    (fun tt _ kl => strContainsSub kl "vpc" && strContainsSub tt "VPC", "DEPLOYED_IN"),
    (fun tt _ kl => strContainsSub kl "subnet" && strContainsSub tt "Subnet", "DEPLOYED_IN"),
    (fun _ _ kl => strContainsSub kl "securitygroup" || strContainsSub kl "groupid", "PROTECTED_BY"),
    (fun tt _ kl => strContainsSub kl "role" && strContainsSub tt "Role", "ASSUMES"),
    (fun tt _ kl => strContainsSub kl "policy" && strContainsSub tt "Policy", "HAS_POLICY"),
    (fun tt _ kl => strContainsSub kl "volume" && strContainsSub tt "Volume", "USES_VOLUME"),
    (fun tt _ kl => strContainsSub kl "snapshot" && strContainsSub tt "Snapshot", "CREATED_FROM"),
    (fun _ _ kl => strContainsSub kl "route" || strContainsSub kl "gateway", "ROUTES_THROUGH"),
    (fun _ _ kl => strContainsSub kl "loadbalancer" || strContainsSub kl "targetgroup", "LOAD_BALANCED_BY"),
    (fun tt _ kl => strContainsSub kl "db" &&
      (strContainsSub tt "DB" || strContainsSub tt "Database" || strContainsSub tt "RDS"),
      "CONNECTS_TO") ]

/-- First-match evaluation of an ordered rule table, falling through to
`USES` when no rule fires. -/
def firstMatchRule : List ClassRule → String → String → String → String
  | [], _, _, _ => "USES"
  | (c, r) :: rest, tt, pl, kl =>
    if c tt pl kl then r else firstMatchRule rest tt pl kl

/-- The relationship kinds the classifier can actually produce. -/
def producibleKinds : List String :=
  ["LOGS_TO", "DEPLOYED_IN", "PROTECTED_BY", "ASSUMES", "HAS_POLICY",
   "USES_VOLUME", "CREATED_FROM", "ROUTES_THROUGH", "LOAD_BALANCED_BY",
   "CONNECTS_TO", "USES"]

/-- `json.dumps` escaping of a quote or backslash character inside a JSON
string (control-character escapes do not occur in any input considered here). -/
def jsonEscapeChar (c : Char) : List Char :=
  if c = '"' || c = '\\' then ['\\', c] else [c]

/-- A JSON string literal with its surrounding quotes. -/
def jsonQuote (s : String) : String :=
  "\"" ++ String.mk (s.data.flatMap jsonEscapeChar) ++ "\""

end AwsDiscovery

mutual
/-- Python `json.dumps` with its default separators (", " and ": "),
restricted to the value shapes of `PVal`. -/
def AwsDiscovery.jsonDumps : AwsDiscovery.PVal → String
  | .vstr s => AwsDiscovery.jsonQuote s
  | .vint n => toString n
  | .vbool true => "true"
  | .vbool false => "false"
  | .vnull => "null"
  | .varr xs => "[" ++ AwsDiscovery.jsonDumpsList xs ++ "]"
  | .vobj fs => "\x7b" ++ AwsDiscovery.jsonDumpsObj fs ++ "\x7d"

/-- Comma-separated rendering of a JSON list body. -/
def AwsDiscovery.jsonDumpsList : AwsDiscovery.PList → String
  | .nil => ""
  | .cons x .nil => AwsDiscovery.jsonDumps x
  | .cons x (.cons y tl) =>
      AwsDiscovery.jsonDumps x ++ ", " ++ AwsDiscovery.jsonDumpsList (.cons y tl)

/-- Comma-separated rendering of a JSON object body. -/
def AwsDiscovery.jsonDumpsObj : AwsDiscovery.PObj → String
  | .nil => ""
  | .cons k v .nil => AwsDiscovery.jsonQuote k ++ ": " ++ AwsDiscovery.jsonDumps v
  | .cons k v (.cons k' v' tl) =>
      AwsDiscovery.jsonQuote k ++ ": " ++ AwsDiscovery.jsonDumps v ++ ", " ++
        AwsDiscovery.jsonDumpsObj (.cons k' v' tl)
end

namespace AwsDiscovery

/-- The key-joining rule of `_flatten_properties`:
`new_key = f"{prefix}_{key}" if prefix else key`. -/
def flattenKey (pre key : String) : String :=
  if pre = "" then key else pre ++ "_" ++ key

/-- The value written for a list property:
`json.dumps(value) if value else "[]"` (an empty list is falsy). -/
def flattenListValue : PList → String
  | .nil => "[]"
  | .cons x tl => jsonDumps (.varr (.cons x tl))

/-- `flatten_dict` inside `_flatten_properties`
(`src/graph/neo4j_client.py:643-667`): the Python code mutates one shared
`flattened` dict in depth-first traversal order; here the same dict is the
assignment sequence returned, read through last-binding-wins `dictGet`. -/
def flattenDict (pre : String) : PObj → List (String × PVal)
  | .nil => []
  | .cons key value tl =>
    let newKey := flattenKey pre key
    (match value with
     | .vobj fields => flattenDict newKey fields
     | .varr xs => [(newKey, .vstr (flattenListValue xs))]
     | .vstr s => [(newKey, .vstr s)]
     | .vint n => [(newKey, .vint n)]
     | .vbool b => [(newKey, .vbool b)]
     | .vnull => [(newKey, .vstr "")]) ++ flattenDict pre tl

/-- `_flatten_properties`: flatten when the argument is a dict, else return
the empty mapping. -/
def flattenProperties : PVal → List (String × PVal)
  | .vobj fields => flattenDict "" fields
  | _ => []

/-- The fixed account-global service set shared by
`Neo4jClient._is_global_service` and `BaseAWSService.is_global_service`. -/
def globalServices : List String :=
  ["iam", "organizations", "route53", "waf", "wafv2", "artifacts", "controltower"]

/-- `_is_global_service` (`src/graph/neo4j_client.py:669-672`). -/
def isGlobalService (service : String) : Bool :=
  globalServices.contains (pyLower service)

/-- `_extract_node_type` (`src/graph/neo4j_client.py:270-283`). -/
def extractNodeType (resource_type : String) : String :=
  if !(pyStartsWith resource_type "AWS::") then "UnknownResource"
  else
    let parts := pySplitOn resource_type "::"
    if 3 ≤ parts.length then parts.getD 2 "UnknownResource"
    else "UnknownResource"

/-- The unique MERGE value chosen by `_create_resource_node`
(`src/graph/neo4j_client.py:238-257`): the ARN when it is truthy and does not
strip to the empty string, else the synthesized composite key. -/
def upsertUniqueValue (accountId : String) (r : ResourceInfo) : String :=
  if r.arn ≠ "" ∧ pyStrip r.arn ≠ "" then r.arn
  else
    let regionPart := if !isGlobalService r.service then r.region else "global"
    r.identifier ++ ":" ++ accountId ++ ":" ++ regionPart ++ ":" ++ r.resource_type

/-- The six fixed keys of the `node_props` dict literal in
`_create_resource_node` (none of them is `region`). -/
def baseNodeProps (accountId : String) (r : ResourceInfo) : List (String × PVal) :=
  [("aws_resource_type", .vstr r.resource_type),
   ("identifier", .vstr r.identifier),
   ("arn", .vstr r.arn),
   ("service", .vstr r.service),
   ("account_id", .vstr accountId),
   ("updated_at", .vstr "datetime()")]

/-- The full property-assignment sequence `_create_resource_node` sends with
its MERGE: base props, then `region` for non-global services, then the
flattened resource properties, then `composite_id` when the ARN is blank. -/
def nodeProps (accountId : String) (r : ResourceInfo) : List (String × PVal) :=
  baseNodeProps accountId r
    ++ (if !isGlobalService r.service then [("region", .vstr r.region)] else [])
    ++ flattenProperties r.properties
    ++ (if r.arn ≠ "" ∧ pyStrip r.arn ≠ "" then []
        else [("composite_id", .vstr (upsertUniqueValue accountId r))])

/-- Key presence in a dict modelled as an assignment sequence. -/
def hasKey (props : List (String × PVal)) (k : String) : Bool :=
  props.any (fun kv => kv.1 == k)

end AwsDiscovery

namespace AwsDiscovery

/-- The `arn_to_resource` index of `_create_resource_relationships`
(`src/graph/neo4j_client.py:309-315`): every non-error record with a truthy
ARN, keyed by ARN (later records overwrite earlier ones, as in a dict). -/
def buildArnIndex (resources : List ResourceInfo) : List (String × ResourceInfo) :=
  resources.filterMap (fun r =>
    if r.hasError then none
    else if r.arn ≠ "" then some (r.arn, r) else none)

/-- The `id_to_resources` index (`src/graph/neo4j_client.py:317-321`):
non-error records grouped by truthy identifier; lookup of a value returns the
group in insertion order (empty when the value is absent). -/
def idIndexLookup (resources : List ResourceInfo) (v : String) : List ResourceInfo :=
  resources.filter (fun r => !r.hasError && r.identifier != "" && r.identifier == v)

end AwsDiscovery

mutual
/-- `search_arns` of `_find_arn_references` (`src/graph/neo4j_client.py:406-429`)
on a dict: string values that start with `arn:aws:` and resolve in the ARN
index yield an edge; nested dicts and lists are searched recursively.  There
is no self-reference check in this scan. -/
def AwsDiscovery.searchArnsObj (self : AwsDiscovery.ResourceInfo)
    (idx : List (String × AwsDiscovery.ResourceInfo)) (path : String) :
    AwsDiscovery.PObj → List (String × AwsDiscovery.ResourceInfo)
  | .nil => []
  | .cons key value tl =>
    let currentPath := if path = "" then key else path ++ "." ++ key
    (match value with
     | .vstr s =>
       if pyStartsWith s "arn:aws:" then
         match AwsDiscovery.dictGet idx s with
         | some target =>
             [(AwsDiscovery.determineUsageRelationship self target currentPath key, target)]
         | none => []
       else []
     | .vobj fields => AwsDiscovery.searchArnsObj self idx currentPath fields
     | .varr xs => AwsDiscovery.searchArnsArr self idx currentPath 0 xs
     | _ => []) ++ AwsDiscovery.searchArnsObj self idx path tl

/-- `search_arns` on a list: recurse into each element with an indexed path
(`f"{path}[{i}]"`); a bare string element is not itself checked. -/
def AwsDiscovery.searchArnsArr (self : AwsDiscovery.ResourceInfo)
    (idx : List (String × AwsDiscovery.ResourceInfo)) (path : String) (i : Nat) :
    AwsDiscovery.PList → List (String × AwsDiscovery.ResourceInfo)
  | .nil => []
  | .cons item tl =>
    let itemPath := path ++ "[" ++ toString i ++ "]"
    (match item with
     | .vobj fields => AwsDiscovery.searchArnsObj self idx itemPath fields
     | .varr xs => AwsDiscovery.searchArnsArr self idx itemPath 0 xs
     | _ => []) ++ AwsDiscovery.searchArnsArr self idx path (i + 1) tl
end

namespace AwsDiscovery

/-- `_find_arn_references`: run the ARN scan over the record's properties
against the index built from all discovered resources. -/
def findArnReferences (r : ResourceInfo) (resources : List ResourceInfo) :
    List (String × ResourceInfo) :=
  match r.properties with
  | .vobj fields => searchArnsObj r (buildArnIndex resources) "" fields
  | _ => []

end AwsDiscovery

mutual
/-- `search_ids` of `_find_id_references` (`src/graph/neo4j_client.py:431-451`)
on a dict: a string value that occurs in the identifier index yields one edge
per indexed record whose ARN differs from the scanning record's own ARN
(`if target_resource.arn != resource.arn:  # Don't link to self`).  Note the
edge is classified with the parent `path`, not the extended path. -/
def AwsDiscovery.searchIdsObj (self : AwsDiscovery.ResourceInfo)
    (resources : List AwsDiscovery.ResourceInfo) (path : String) :
    AwsDiscovery.PObj → List (String × AwsDiscovery.ResourceInfo)
  | .nil => []
  | .cons key value tl =>
    (match value with
     | .vstr s =>
       (AwsDiscovery.idIndexLookup resources s).filterMap (fun target =>
         if target.arn ≠ self.arn then
           some (AwsDiscovery.determineUsageRelationship self target path key, target)
         else none)
     | .vobj fields =>
       AwsDiscovery.searchIdsObj self resources
         (if path = "" then key else path ++ "." ++ key) fields
     | .varr xs =>
       AwsDiscovery.searchIdsObj_list self resources
         (if path = "" then key else path ++ "." ++ key) 0 xs
     | _ => []) ++ AwsDiscovery.searchIdsObj self resources path tl

/-- `search_ids` on a list: recurse only into dict or list elements. -/
def AwsDiscovery.searchIdsObj_list (self : AwsDiscovery.ResourceInfo)
    (resources : List AwsDiscovery.ResourceInfo) (path : String) (i : Nat) :
    AwsDiscovery.PList → List (String × AwsDiscovery.ResourceInfo)
  | .nil => []
  | .cons item tl =>
    let itemPath := path ++ "[" ++ toString i ++ "]"
    (match item with
     | .vobj fields => AwsDiscovery.searchIdsObj self resources itemPath fields
     | .varr xs => AwsDiscovery.searchIdsObj_list self resources itemPath 0 xs
     | _ => []) ++ AwsDiscovery.searchIdsObj_list self resources path (i + 1) tl
end

namespace AwsDiscovery

/-- `_find_id_references`: run the identifier scan over the record's
properties. -/
def findIdReferences (r : ResourceInfo) (resources : List ResourceInfo) :
    List (String × ResourceInfo) :=
  match r.properties with
  | .vobj fields => searchIdsObj r resources "" fields
  | _ => []

/-- The `cross_account_targets` list of `_create_vpc_peering_components`
(`src/graph/neo4j_client.py:1218-1256`): accepter and requester owner accounts
are tested independently against the current account; a truthy owner that
differs is appended. -/
def peeringCrossAccountTargets (current accepterOwner requesterOwner : String) :
    List String :=
  (if accepterOwner ≠ "" ∧ accepterOwner ≠ current then [accepterOwner] else []) ++
  (if requesterOwner ≠ "" ∧ requesterOwner ≠ current then [requesterOwner] else [])

/-- The Account→Account edges one peering connection contributes: one
`CONNECTED_VIA_VPC_PEERING` MERGE per cross-account target, directed from the
current account. -/
def peeringCrossAccountEdges (current accepterOwner requesterOwner : String) :
    List (String × String) :=
  (peeringCrossAccountTargets current accepterOwner requesterOwner).map
    (fun target => (current, target))

/-- `route_id = f"{route_table_id}_route_{i}"`
(`src/graph/neo4j_client.py:755`). -/
def routeRuleId (routeTableId : String) (i : Nat) : String :=
  routeTableId ++ "_route_" ++ toString i

/-- `route_arn = f"arn:aws:ec2:{region}:{account}:route/{route_id}"`
(`src/graph/neo4j_client.py:756`). -/
def routeRuleArn (region accountId routeTableId : String) (i : Nat) : String :=
  "arn:aws:ec2:" ++ region ++ ":" ++ accountId ++ ":route/" ++
    routeRuleId routeTableId i

/-- The synthesized globalRef of every child produced when `_create_route_rules`
expands one route table: `enumerate(routes)` pairs each route with its index,
and the key depends only on the index, never on the route's content. -/
def synthesizedRouteKeys (region accountId routeTableId : String)
    (routes : List PVal) : List String :=
  (List.range routes.length).map (routeRuleArn region accountId routeTableId)

/-- The summary view of `resources_dict` entries used by route-target
resolution (`add_resources_to_graph` builds `resources_dict[arn]` with these
fields). -/
structure ResourceSummary where
  resource_type : String
  identifier : String
deriving Repr, DecidableEq

/-- The fixed `target_mappings` of `_create_route_target_relationships`
(`src/graph/neo4j_client.py:825-832`). -/
def targetMappings : List (String × String) :=
  [("gateway_id", "AWS::EC2::InternetGateway"),
   ("nat_gateway_id", "AWS::EC2::NatGateway"),
   ("instance_id", "AWS::EC2::Instance"),
   ("network_interface_id", "AWS::EC2::NetworkInterface"),
   ("transit_gateway_id", "AWS::EC2::TransitGateway"),
   ("vpc_peering_connection_id", "AWS::EC2::VPCPeeringConnection")]

/-- The `for arn, info in resources.items(): ... break` search: the first
resource whose (type, identifier) pair matches exactly. -/
def findTargetArn (resources : List (String × ResourceSummary))
    (rtype tid : String) : Option String :=
  (resources.find? (fun ai => ai.2.resource_type == rtype && ai.2.identifier == tid)).map
    (fun ai => ai.1)

/-- The body of `_create_route_target_relationships` for one mapping entry:
the ROUTES_TO target ARNs it contributes. -/
def routeTargetsFor (routeProps : List (String × String))
    (resources : List (String × ResourceSummary)) (m : String × String) :
    List String :=
  match dictGet routeProps m.1 with
  | none => []
  | some tid =>
    if tid ≠ "" ∧ tid ≠ "local" then
      match findTargetArn resources m.2 tid with
      | some targetArn => [targetArn]
      | none => []
    else []

/-- `_create_route_target_relationships` (`src/graph/neo4j_client.py:821-852`):
all ROUTES_TO target ARNs emitted for one synthesized route rule. -/
def routeTargetArns (routeProps : List (String × String))
    (resources : List (String × ResourceSummary)) : List String :=
  targetMappings.flatMap (routeTargetsFor routeProps resources)

end AwsDiscovery

namespace AwsDiscovery

/-- An apostrophe, built from its code point so it can sit inside pattern
strings. -/
def apos : String := String.singleton (Char.ofNat 39)

/-- The fixed `skip_error_patterns` allowlist of
`BaseAWSService.should_skip_resource_type` (`src/core/base_service.py:83-125`),
all lowercase as in the source. -/
def skipErrorPatterns : List String :=
  ["throttlingexception",
   "rate exceeded",
   "too many requests",
   "required key",
   "required property",
   "missing or invalid resourcemodel property",
   "property cannot be empty",
   "autoscalinggroupname is required",
   "certificatearn cannot be empty",
   "transitgatewaymulticastdomainid",
   "domainidentifier",
   "projectidentifier",
   "environmentidentifier",
   "identitypoolid",
   "identityprovidername",
   "does not support list action",
   "unsupportedactionexception",
   "typenotfoundexception",
   "cannot be found",
   "operation is not supported",
   "feature is not available",
   "subscription does not exist",
   "not registered as a publisher",
   "access grants instance does not exist",
   "cost category",
   "linked account doesn" ++ apos ++ "t have access",
   "controltower could not complete",
   "awscontroltoweradmin",
   "failed to list cost categories",
   "error occurred during operation",
   "handler returned status failed",
   "generalserviceexception"]

/-- The base-class `get_skip_patterns` (`src/core/base_service.py:135-143`):
four categories, all empty. -/
def baseSkipPatterns : List (String × List String) :=
  [("missing_required_key", []),
   ("unsupported_action", []),
   ("type_not_found", []),
   ("subscription_required", [])]

/-- `should_skip_resource_type` (`src/core/base_service.py:69-133`): first the
per-category resource-type lists, then the case-insensitive substring match of
the lowered error message against the pattern allowlist. -/
def shouldSkipResourceType (skipPatterns : List (String × List String))
    (resource_type error_msg : String) : Bool :=
  if skipPatterns.any (fun cat => cat.2.contains resource_type) then true
  else skipErrorPatterns.any (fun p => strContainsSub (pyLower error_msg) p)

/-- The service-name derivation of `ResourceInfo.__post_init__`
(`src/core/resource_info.py`): the second `::` component, lowered, when the
type contains `::`. -/
def derivedService (resource_type : String) : String :=
  if strContainsSub resource_type "::" then
    pyLower ((pySplitOn resource_type "::").getD 1 "")
  else ""

/-- The error-tagged record `discover_resource_type` builds on failure. -/
def errorResource (resource_type err : String) : ResourceInfo :=
  { resource_type := resource_type, identifier := "ERROR", error := err,
    service := derivedService resource_type }

/-- An enumeration error raised during `discover_resource_type`: either a
provider `ClientError` (with its error code and `str(e)` message) or an
unexpected exception. -/
inductive EnumError where
  | clientError (code msg : String)
  | unexpectedError (msg : String)
deriving Repr, DecidableEq

/-- The exception handling of `discover_resource_type`
(`src/core/base_service.py:177-203`): a `ClientError` is classified through
`should_skip_resource_type` — matched means an empty (silently skipped)
result, unmatched means one error-tagged record with `"{code}: {msg}"`; an
unexpected exception always yields one error-tagged record, with no
classification. -/
def discoverResourceTypeOnError (skipPatterns : List (String × List String))
    (resource_type : String) : EnumError → List ResourceInfo
  | .clientError code msg =>
    if shouldSkipResourceType skipPatterns resource_type msg then []
    else [errorResource resource_type (code ++ ": " ++ msg)]
  | .unexpectedError msg => [errorResource resource_type msg]

end AwsDiscovery

namespace AwsDiscovery

/-- Scalar flattened values: strings, integers and booleans. -/
def PVal.isScalar : PVal → Bool
  | .vstr _ => true
  | .vint _ => true
  | .vbool _ => true
  | _ => false

/-- A topic record whose properties carry both its own ARN and its own
identifier — the shape `_parse_resource_description` produces, since the ARN
is itself extracted from the properties. -/
def selfRefTopic : ResourceInfo :=
  { resource_type := "AWS::SNS::Topic", identifier := "mytopic",
    arn := "arn:aws:sns:us-east-1:123456789012:mytopic",
    service := "sns", region := "us-east-1",
    properties := .vobj
      (.cons "TopicArn" (.vstr "arn:aws:sns:us-east-1:123456789012:mytopic")
        (.cons "TopicName" (.vstr "mytopic") .nil)) }

/-- A function record holding a direct ARN reference to `refTargetTopic`
under a key that matches none of the classifier's substring rules. -/
def refSourceFn : ResourceInfo :=
  { resource_type := "AWS::Lambda::Function", identifier := "myfn",
    arn := "arn:aws:lambda:us-east-1:123456789012:function:myfn",
    service := "lambda", region := "us-east-1",
    properties := .vobj
      (.cons "TargetArn" (.vstr "arn:aws:sns:us-east-1:123456789012:dlq") .nil) }

/-- The topic `refSourceFn` references directly by ARN. -/
def refTargetTopic : ResourceInfo :=
  { resource_type := "AWS::SNS::Topic", identifier := "dlq",
    arn := "arn:aws:sns:us-east-1:123456789012:dlq",
    service := "sns", region := "us-east-1",
    properties := .vobj (.cons "TopicName" (.vstr "dlq") .nil) }

end AwsDiscovery

namespace AwsDiscovery

/-- C9: `_extract_node_type` is total and returns the third `::`-separated
component exactly when the resource type starts with `AWS::` and splits into
at least three components; in every other case (no `AWS::` start, or fewer
than three components) it returns the fixed label `UnknownResource`. -/
theorem extract_node_type_total_spec (rt : String) :
    (∀ a b c rest, pyStartsWith rt "AWS::" = true →
      pySplitOn rt "::" = a :: b :: c :: rest → extractNodeType rt = c) ∧
    (pyStartsWith rt "AWS::" = false → extractNodeType rt = "UnknownResource") ∧
    ((pySplitOn rt "::").length < 3 → extractNodeType rt = "UnknownResource") := by
  refine ⟨?_, ?_, ?_⟩
  · intro a b c rest hs hsplit
    simp [extractNodeType, hs, hsplit, List.getD]
  · intro hs
    simp [extractNodeType, hs]
  · intro hlen
    have h3 : ¬ (3 ≤ (pySplitOn rt "::").length) := by omega
    simp [extractNodeType, h3]

/-- C9 witness: the three cases of `extract_node_type_total_spec` at concrete
resource-type strings. -/
theorem extract_node_type_total_spec_witness :
    extractNodeType "AWS::EC2::Instance" = "Instance" ∧
    extractNodeType "EC2::Instance" = "UnknownResource" ∧
    extractNodeType "AWS::EC2" = "UnknownResource" :=
  ⟨(extract_node_type_total_spec "AWS::EC2::Instance").1 "AWS" "EC2" "Instance" []
      (by decide) (by decide),
   (extract_node_type_total_spec "EC2::Instance").2.1 (by decide),
   (extract_node_type_total_spec "AWS::EC2").2.2 (by decide)⟩

/-- C4 counterexample: a record of the account-global service `iam` with a
blank ARN gets a composite key whose region part is the literal `global`, not
the record's region — so the key is not built from the record's region as the
claim states. -/
theorem upsert_key_region_counterexample :
    upsertUniqueValue "123456789012"
      { resource_type := "AWS::IAM::Role", identifier := "MyRole", arn := "",
        service := "iam", region := "us-east-1" } =
      "MyRole:123456789012:global:AWS::IAM::Role" ∧
    ("MyRole:123456789012:global:AWS::IAM::Role" : String) ≠
      "MyRole:123456789012:us-east-1:AWS::IAM::Role" := by
  constructor
  · decide
  · decide

/-- C4 amended: the upsert key is the ARN exactly when the ARN is non-empty
after stripping whitespace; otherwise it is the composite key
`id:account:regionPart:type` where `regionPart` is the record's region for a
region-scoped service and the literal `global` for an account-global
service. -/
theorem upsert_key_characterization (accountId : String) (r : ResourceInfo) :
    (pyStrip r.arn ≠ "" → upsertUniqueValue accountId r = r.arn) ∧
    (pyStrip r.arn = "" →
      upsertUniqueValue accountId r =
        r.identifier ++ ":" ++ accountId ++ ":" ++
          (if isGlobalService r.service then "global" else r.region) ++ ":" ++
          r.resource_type) := by
  constructor
  · intro h
    have harn : r.arn ≠ "" := by
      intro he
      rw [he] at h
      exact h (by decide)
    rw [upsertUniqueValue, if_pos ⟨harn, h⟩]
  · intro h
    have hneg : ¬ (r.arn ≠ "" ∧ pyStrip r.arn ≠ "") := by
      rintro ⟨-, h2⟩
      exact h2 h
    rw [upsertUniqueValue, if_neg hneg]
    cases hg : isGlobalService r.service <;> simp [hg]

/-- C4 witness: both branches of `upsert_key_characterization` at concrete
records (a non-blank ARN, and a whitespace-only ARN of a region-scoped
service). -/
theorem upsert_key_characterization_witness :
    upsertUniqueValue "111122223333"
      { resource_type := "AWS::S3::Bucket", identifier := "b",
        arn := "arn:aws:s3:::b", service := "s3", region := "us-east-1" } =
      "arn:aws:s3:::b" ∧
    upsertUniqueValue "111122223333"
      { resource_type := "AWS::EC2::Subnet", identifier := "subnet-1",
        arn := "  ", service := "ec2", region := "eu-west-1" } =
      "subnet-1:111122223333:eu-west-1:AWS::EC2::Subnet" := by
  constructor
  · exact (upsert_key_characterization "111122223333" _).1 (by decide)
  · rw [(upsert_key_characterization "111122223333"
      { resource_type := "AWS::EC2::Subnet", identifier := "subnet-1",
        arn := "  ", service := "ec2", region := "eu-west-1" }).2 (by decide)]
    decide

/-- C5: the accepter and requester owner accounts are tested independently
against the current account; a connection whose two sides are owned by
non-empty accounts X and Y, both different from the current account, emits
exactly the two edges current→X and current→Y, and a connection owned
entirely by the current account emits none. -/
theorem peering_cross_account_edges_spec (current X Y : String) :
    (X ≠ "" → X ≠ current → Y ≠ "" → Y ≠ current →
      peeringCrossAccountEdges current X Y = [(current, X), (current, Y)]) ∧
    peeringCrossAccountEdges current current current = [] := by
  constructor
  · intro hx1 hx2 hy1 hy2
    simp [peeringCrossAccountEdges, peeringCrossAccountTargets, hx1, hx2, hy1, hy2]
  · simp [peeringCrossAccountEdges, peeringCrossAccountTargets]

/-- C5 witness: a peering connection between two foreign accounts emits the
two edges from the current account. -/
theorem peering_cross_account_edges_spec_witness :
    peeringCrossAccountEdges "111111111111" "222222222222" "333333333333" =
      [("111111111111", "222222222222"), ("111111111111", "333333333333")] :=
  (peering_cross_account_edges_spec "111111111111" "222222222222"
    "333333333333").1 (by decide) (by decide) (by decide) (by decide)

/-- C7 counterexample: a record of the account-global service `iam` whose own
properties contain a `region` key does carry a `region` property in the
upserted node properties, contradicting "never carries a region property". -/
theorem global_service_region_counterexample :
    isGlobalService "iam" = true ∧
    hasKey (nodeProps "123456789012"
      { resource_type := "AWS::IAM::Role", identifier := "MyRole",
        arn := "arn:aws:iam::123456789012:role/MyRole", service := "iam",
        region := "",
        properties := .vobj (.cons "region" (.vstr "us-east-1") .nil) })
      "region" = true := by
  decide

/-- C7 amended: the upserted node properties contain a `region` key exactly
when the service is region-scoped or the record's own flattened properties
contain a `region` key; in particular a region-scoped record always carries
one, and an account-global record carries one only when its own properties
inject it. -/
theorem node_region_key_characterization (accountId : String) (r : ResourceInfo) :
    hasKey (nodeProps accountId r) "region" =
      (!isGlobalService r.service ||
        hasKey (flattenProperties r.properties) "region") := by
  cases hg : isGlobalService r.service <;>
    simp [nodeProps, hasKey, baseNodeProps, hg, List.any_append]

/-- C8: route-rule key synthesis is deterministic: the i-th route of a route
table always receives the ARN built from the table id and the index i alone,
so two expansions of the same table (with possibly different fetched route
contents) agree on every corresponding child key. -/
theorem route_key_stability (region accountId routeTableId : String)
    (routes routes' : List PVal) (i : Nat)
    (h : i < routes.length) (h' : i < routes'.length) :
    (synthesizedRouteKeys region accountId routeTableId routes).get? i =
      some (routeRuleArn region accountId routeTableId i) ∧
    (synthesizedRouteKeys region accountId routeTableId routes).get? i =
      (synthesizedRouteKeys region accountId routeTableId routes').get? i := by
  have key : ∀ (rs : List PVal), i < rs.length →
      (synthesizedRouteKeys region accountId routeTableId rs).get? i =
        some (routeRuleArn region accountId routeTableId i) := by
    intro rs hi
    simp [synthesizedRouteKeys, List.get?_eq_getElem?, List.getElem?_map,
      List.getElem?_range hi]
  exact ⟨key routes h, (key routes h).trans (key routes' h').symm⟩

/-- C8 witness: the second route of the same route table gets the same
synthesized key across two expansions with different route contents. -/
theorem route_key_stability_witness :
    (synthesizedRouteKeys "us-east-1" "123456789012" "rtb-0a1"
      [.vnull, .vnull]).get? 1 =
      some (routeRuleArn "us-east-1" "123456789012" "rtb-0a1" 1) ∧
    (synthesizedRouteKeys "us-east-1" "123456789012" "rtb-0a1"
      [.vnull, .vnull]).get? 1 =
      (synthesizedRouteKeys "us-east-1" "123456789012" "rtb-0a1"
        [.vstr "a", .vint 3]).get? 1 :=
  route_key_stability "us-east-1" "123456789012" "rtb-0a1"
    [.vnull, .vnull] [.vstr "a", .vint 3] 1 (by decide) (by decide)

end AwsDiscovery

namespace AwsDiscovery

/-- C1 counterexample: a direct global-reference (ARN) match with no other
signal — the key `TargetArn` matches none of the substring rules — is
classified `USES`, not `REFERENCES`: the classifier has no `REFERENCES`
rule before its fallback. -/
theorem classification_references_counterexample :
    findArnReferences refSourceFn [refSourceFn, refTargetTopic] =
      [("USES", refTargetTopic)] ∧
    ("USES" : String) ≠ "REFERENCES" := by
  constructor
  · decide
  · decide

/-- Every kind an ordered rule table can yield, including the fallback, is a
producible kind, provided each rule result is. -/
theorem firstMatchRule_mem (rules : List ClassRule)
    (hall : ∀ r ∈ rules, r.2 ∈ producibleKinds) (tt pl kl : String) :
    firstMatchRule rules tt pl kl ∈ producibleKinds := by
  induction rules with
  | nil =>
    rw [firstMatchRule]
    decide
  | cons hd tlr ih =>
    obtain ⟨c, r⟩ := hd
    rw [firstMatchRule]
    split
    · exact hall (c, r) (List.mem_cons_self _ _)
    · exact ih (fun x hx => hall x (List.mem_cons_of_mem _ hx))

/-- C1 amended: the classifier evaluates its 11 substring rules in the listed
fixed order with the first match winning — it equals first-match evaluation of
the ordered rule table — a key containing "log" classifies `LOGS_TO` before
any later rule, and there is no `REFERENCES` kind: every output is one of the
11 rule kinds or the fallback `USES`, which covers a direct global-reference
match with no other signal. -/
theorem classification_precedence_spec (source target : ResourceInfo)
    (path key : String) :
    determineUsageRelationship source target path key =
      firstMatchRule classificationRules target.resource_type
        (pyLower path) (pyLower key) ∧
    (strContainsSub (pyLower key) "log" = true →
      determineUsageRelationship source target path key = "LOGS_TO") ∧
    determineUsageRelationship source target path key ∈ producibleKinds ∧
    "REFERENCES" ∉ producibleKinds := by
  have h1 : determineUsageRelationship source target path key =
      firstMatchRule classificationRules target.resource_type
        (pyLower path) (pyLower key) := rfl
  refine ⟨h1, ?_, ?_, by decide⟩
  · intro h
    simp [determineUsageRelationship, h]
  · rw [h1]
    refine firstMatchRule_mem classificationRules ?_ _ _ _
    intro r hr
    simp only [classificationRules, List.mem_cons, List.not_mem_nil,
      or_false] at hr
    rcases hr with h|h|h|h|h|h|h|h|h|h|h <;> subst h <;> decide

/-- C1 witness: the spec's own precedence test — a key containing both
`loggingBucket` and a role reference classifies `LOGS_TO` (the log rule
precedes the role rule). -/
theorem classification_precedence_spec_witness :
    determineUsageRelationship
      { resource_type := "AWS::S3::Bucket", identifier := "b" }
      { resource_type := "AWS::IAM::Role", identifier := "r" }
      "x" "loggingBucketRoleArn" = "LOGS_TO" :=
  (classification_precedence_spec
    { resource_type := "AWS::S3::Bucket", identifier := "b" }
    { resource_type := "AWS::IAM::Role", identifier := "r" }
    "x" "loggingBucketRoleArn").2.1 (by decide)

/-- C6 counterexample: an enumeration error raised as an unexpected (non
`ClientError`) exception whose message matches the skip allowlist
case-insensitively (`Rate exceeded`) is NOT skipped silently: the code
returns an error-tagged record without classifying such errors, while the
claim requires every matching enumeration error to yield an empty result. -/
theorem enumeration_skip_counterexample :
    shouldSkipResourceType baseSkipPatterns "AWS::Some::Type" "Rate exceeded" = true ∧
    discoverResourceTypeOnError baseSkipPatterns "AWS::Some::Type"
      (.unexpectedError "Rate exceeded") =
      [errorResource "AWS::Some::Type" "Rate exceeded"] ∧
    ([errorResource "AWS::Some::Type" "Rate exceeded"] : List ResourceInfo) ≠ [] := by
  refine ⟨by decide, by decide, by decide⟩

/-- C6 amended: an enumeration error raised as a provider `ClientError` is
classified by case-insensitive substring match against the fixed allowlist —
on a match the type is skipped silently with an empty result, otherwise an
error-tagged record is returned (so discovery of other types continues);
an unexpected non-`ClientError` exception always yields an error-tagged
record without classification. -/
theorem enumeration_error_classification (rt code msg : String) :
    (shouldSkipResourceType baseSkipPatterns rt msg = true →
      discoverResourceTypeOnError baseSkipPatterns rt (.clientError code msg) = []) ∧
    (shouldSkipResourceType baseSkipPatterns rt msg = false →
      discoverResourceTypeOnError baseSkipPatterns rt (.clientError code msg) =
        [errorResource rt (code ++ ": " ++ msg)]) ∧
    discoverResourceTypeOnError baseSkipPatterns rt (.unexpectedError msg) =
      [errorResource rt msg] ∧
    shouldSkipResourceType baseSkipPatterns rt msg =
      skipErrorPatterns.any (fun p => strContainsSub (pyLower msg) p) := by
  refine ⟨?_, ?_, rfl, ?_⟩
  · intro h
    simp [discoverResourceTypeOnError, h]
  · intro h
    simp [discoverResourceTypeOnError, h]
  · simp [shouldSkipResourceType, baseSkipPatterns]

/-- C6 witness: a throttling `ClientError` is skipped silently; an unmatched
`ClientError` yields one error-tagged record. -/
theorem enumeration_error_classification_witness :
    discoverResourceTypeOnError baseSkipPatterns "AWS::EC2::Instance"
      (.clientError "ThrottlingException" "Rate exceeded for list_resources") = [] ∧
    discoverResourceTypeOnError baseSkipPatterns "AWS::EC2::Instance"
      (.clientError "ValidationException" "some new failure mode") =
      [errorResource "AWS::EC2::Instance"
        ("ValidationException" ++ ": " ++ "some new failure mode")] :=
  ⟨(enumeration_error_classification "AWS::EC2::Instance" "ThrottlingException"
      "Rate exceeded for list_resources").1 (by decide),
   (enumeration_error_classification "AWS::EC2::Instance" "ValidationException"
      "some new failure mode").2.1 (by decide)⟩

/-- C2: the code violates the self-loop exclusion.  At a record whose
properties contain its own ARN — the normal shape, since
`_extract_arn` reads the ARN out of the properties — `_find_arn_references`
emits a self-loop edge (it has no self-reference check), while
`_find_id_references` correctly suppresses the self match on the record's own
identifier. -/
theorem arn_scan_self_loop :
    findArnReferences selfRefTopic [selfRefTopic] = [("USES", selfRefTopic)] ∧
    findIdReferences selfRefTopic [selfRefTopic] = [] := by
  refine ⟨by decide, by decide⟩

end AwsDiscovery

namespace AwsDiscovery

/-- Every value that property flattening writes is a scalar (string, integer
or boolean): no list survives flattening as a list.  Strong induction on the
size of the object. -/
theorem flattenDict_values_scalar :
    ∀ (N : Nat) (pre : String) (obj : PObj), sizeOf obj ≤ N →
      ∀ kv ∈ flattenDict pre obj, kv.2.isScalar = true := by
  intro N
  induction N with
  | zero =>
    intro pre obj h
    cases obj <;> simp_arith at h
  | succ n ih =>
    intro pre obj h kv hkv
    cases obj with
    | nil => simp [flattenDict] at hkv
    | cons key value tl =>
      rw [flattenDict.eq_def] at hkv
      simp only [] at hkv
      have hsz : sizeOf (PObj.cons key value tl) ≤ n + 1 := h
      simp only [PObj.cons.sizeOf_spec] at hsz
      rcases List.mem_append.mp hkv with hl | hr
      · cases value with
        | vobj fields =>
          have hf : sizeOf fields ≤ n := by
            simp only [PVal.vobj.sizeOf_spec] at hsz
            omega
          exact ih (flattenKey pre key) fields hf kv hl
        | varr xs =>
          simp only [List.mem_singleton] at hl
          subst hl
          rfl
        | vstr s =>
          simp only [List.mem_singleton] at hl
          subst hl
          rfl
        | vint m =>
          simp only [List.mem_singleton] at hl
          subst hl
          rfl
        | vbool b =>
          simp only [List.mem_singleton] at hl
          subst hl
          rfl
        | vnull =>
          simp only [List.mem_singleton] at hl
          subst hl
          rfl
      · have ht : sizeOf tl ≤ n := by omega
        exact ih pre tl ht kv hr

/-- C3 counterexample: a list of scalars is not preserved as-is — it is
serialized to its JSON string. -/
theorem flatten_scalar_list_counterexample :
    flattenProperties (.vobj (.cons "Ports"
      (.varr (.cons (.vint 80) (.cons (.vint 443) .nil))) .nil)) =
      [("Ports", .vstr "[80, 443]")] ∧
    PVal.vstr "[80, 443]" ≠
      PVal.varr (.cons (.vint 80) (.cons (.vint 443) .nil)) := by
  refine ⟨by decide, by decide⟩

/-- C3 amended: flattening turns nested maps into underscore-joined keys;
every list — of scalars or not — is serialized to its JSON string (an empty
list to `[]`); `None` is coerced to an empty-but-present string; scalars are
preserved; every flattened value is a scalar; and flattening is a function of
its input alone, so re-flattening the same input yields the same output. -/
theorem flatten_characterization (pre key : String) (fs : PObj)
    (xs : PList) (s : String) (n : Int) (b : Bool) (tl : PObj) :
    flattenDict pre .nil = [] ∧
    flattenDict pre (.cons key (.vobj fs) tl) =
      flattenDict (flattenKey pre key) fs ++ flattenDict pre tl ∧
    flattenDict pre (.cons key (.varr xs) tl) =
      (flattenKey pre key, .vstr (flattenListValue xs)) :: flattenDict pre tl ∧
    flattenDict pre (.cons key (.vstr s) tl) =
      (flattenKey pre key, .vstr s) :: flattenDict pre tl ∧
    flattenDict pre (.cons key (.vint n) tl) =
      (flattenKey pre key, .vint n) :: flattenDict pre tl ∧
    flattenDict pre (.cons key (.vbool b) tl) =
      (flattenKey pre key, .vbool b) :: flattenDict pre tl ∧
    flattenDict pre (.cons key .vnull tl) =
      (flattenKey pre key, .vstr "") :: flattenDict pre tl ∧
    (∀ kv ∈ flattenDict pre tl, kv.2.isScalar = true) ∧
    (∀ p q : PVal, p = q → flattenProperties p = flattenProperties q) := by
  refine ⟨rfl, rfl, rfl, rfl, rfl, rfl, rfl, ?_, ?_⟩
  · exact flattenDict_values_scalar (sizeOf tl) pre tl (Nat.le_refl _)
  · intro p q hpq
    rw [hpq]

/-- C3 witness: the characterization applied at a nested map, a serialized
list, a `None` value and a concrete re-run. -/
theorem flatten_characterization_witness :
    flattenDict "" (.cons "Cfg" (.vobj (.cons "Port" (.vint 5432) .nil)) .nil) =
      flattenDict (flattenKey "" "Cfg") (.cons "Port" (.vint 5432) .nil) ++
        flattenDict "" .nil ∧
    flattenDict "" (.cons "Tags" (.varr .nil) .nil) =
      (flattenKey "" "Tags", .vstr (flattenListValue .nil)) ::
        flattenDict "" .nil ∧
    flattenProperties (.vobj (.cons "Name" (.vstr "db") .nil)) =
      flattenProperties (.vobj (.cons "Name" (.vstr "db") .nil)) :=
  ⟨(flatten_characterization "" "Cfg" (.cons "Port" (.vint 5432) .nil)
      .nil "" 0 false .nil).2.1,
   (flatten_characterization "" "Tags" .nil .nil "" 0 false .nil).2.2.1,
   (flatten_characterization "" "x" .nil .nil "" 0 false .nil).2.2.2.2.2.2.2.2
     (.vobj (.cons "Name" (.vstr "db") .nil))
     (.vobj (.cons "Name" (.vstr "db") .nil)) rfl⟩

/-- Soundness of the route-target search over any mapping list: an emitted
target ARN comes from a mapping whose property value is present, non-empty,
not `local`, and matches a resource by exact (type, identifier) pair. -/
theorem routeTargets_sound (routeProps : List (String × String))
    (resources : List (String × ResourceSummary)) :
    ∀ (ms : List (String × String)) (t : String),
      t ∈ ms.flatMap (routeTargetsFor routeProps resources) →
      ∃ m ∈ ms, ∃ tid, dictGet routeProps m.1 = some tid ∧ tid ≠ "" ∧
        tid ≠ "local" ∧ ∃ ai ∈ resources, ai.1 = t ∧
          ai.2.resource_type = m.2 ∧ ai.2.identifier = tid := by
  intro ms
  induction ms with
  | nil =>
    intro t ht
    simp at ht
  | cons m ms ih =>
    intro t ht
    rcases List.mem_append.mp ht with hl | hr
    · refine ⟨m, List.mem_cons_self _ _, ?_⟩
      unfold routeTargetsFor at hl
      cases hp : dictGet routeProps m.1 with
      | none =>
        rw [hp] at hl
        simp at hl
      | some tid =>
        rw [hp] at hl
        simp only [] at hl
        by_cases hc : tid ≠ "" ∧ tid ≠ "local"
        · rw [if_pos hc] at hl
          cases hf : findTargetArn resources m.2 tid with
          | none =>
            rw [hf] at hl
            simp at hl
          | some ta =>
            rw [hf] at hl
            simp only [List.mem_singleton] at hl
            subst hl
            refine ⟨tid, rfl, hc.1, hc.2, ?_⟩
            unfold findTargetArn at hf
            cases hfind : resources.find?
                (fun ai => ai.2.resource_type == m.2 && ai.2.identifier == tid) with
            | none =>
              rw [hfind] at hf
              simp at hf
            | some ai =>
              rw [hfind] at hf
              simp only [Option.map_some'] at hf
              have hmem := List.mem_of_find?_eq_some hfind
              have hprop := List.find?_some hfind
              simp only [Bool.and_eq_true, beq_iff_eq] at hprop
              exact ⟨ai, hmem, Option.some.inj hf, hprop.1, hprop.2⟩
        · rw [if_neg hc] at hl
          simp at hl
    · obtain ⟨m', hm', rest⟩ := ih t hr
      exact ⟨m', List.mem_cons_of_mem _ hm', rest⟩

/-- C10: a ROUTES_TO edge is emitted only for a target id that is present
under one of the fixed mapping keys, non-empty, not the literal `local`, and
equal to the identifier of a discovered resource of the mapping's exact
resource type; a route whose gateway target is `local` contributes no
gateway edge. -/
theorem route_target_edges_spec (routeProps : List (String × String))
    (resources : List (String × ResourceSummary)) (t : String) :
    (t ∈ routeTargetArns routeProps resources →
      ∃ m ∈ targetMappings, ∃ tid, dictGet routeProps m.1 = some tid ∧
        tid ≠ "" ∧ tid ≠ "local" ∧ ∃ ai ∈ resources, ai.1 = t ∧
          ai.2.resource_type = m.2 ∧ ai.2.identifier = tid) ∧
    (dictGet routeProps "gateway_id" = some "local" →
      routeTargetsFor routeProps resources
        ("gateway_id", "AWS::EC2::InternetGateway") = []) := by
  constructor
  · intro ht
    exact routeTargets_sound routeProps resources targetMappings t ht
  · intro h
    simp [routeTargetsFor, h]

/-- C10 witness: a concrete route whose gateway id resolves to a discovered
internet gateway satisfies all emission conditions. -/
theorem route_target_edges_spec_witness :
    ∃ m ∈ targetMappings, ∃ tid,
      dictGet [("arn", "ra"), ("gateway_id", "igw-1")] m.1 = some tid ∧
      tid ≠ "" ∧ tid ≠ "local" ∧
      ∃ ai ∈ [("arn:aws:ec2:igw",
          ResourceSummary.mk "AWS::EC2::InternetGateway" "igw-1")],
        ai.1 = "arn:aws:ec2:igw" ∧ ai.2.resource_type = m.2 ∧
          ai.2.identifier = tid :=
  (route_target_edges_spec [("arn", "ra"), ("gateway_id", "igw-1")]
    [("arn:aws:ec2:igw", ResourceSummary.mk "AWS::EC2::InternetGateway" "igw-1")]
    "arn:aws:ec2:igw").1 (by decide)

end AwsDiscovery
